import Mathlib

/-!
Verification of the k6 load-test repository (workoflow/k6-load-tests).

The repository's own logic is JavaScript glue: environment-driven
configuration loading, Bot Framework activity construction, request-header
assembly, a token cache, and k6 `options` objects (stages and thresholds).
Those parts are embedded here directly from the source files.

The load-generation engine itself (stage scheduler, Rate/Trend metric
aggregation) is provided by the external k6 tool and is not in the
repository; where a claim is about that engine, the definitions below are
modelled from the repository's specification document and are marked as such
in their doc comments.
-/

/-! ## JavaScript value helpers

JavaScript truthiness for optional string values: `undefined` and the empty
string are falsy. `jsOr v d` models the JavaScript expression `v || d`;
`jsTruthyStr v` models using `v` as a boolean condition. -/

/-- Models the JavaScript expression `v || d` for a possibly-undefined
string `v`: the default applies when `v` is `undefined` or the empty
string (both falsy). -/
def jsOr (v : Option String) (d : String) : String :=
  match v with
  | some s => if s = "" then d else s
  | none => d

/-- JavaScript truthiness of a possibly-undefined string: `undefined` and
`""` are falsy, every other string is truthy. -/
def jsTruthyStr (v : Option String) : Bool :=
  match v with
  | some s => !(s == "")
  | none => false

/-! ## ECMAScript object-literal evaluation

An object literal is evaluated entry by entry; defining a property whose
key already exists overwrites the stored value in place (the key keeps its
original insertion position).  This is also the behaviour of
`Map.prototype.set`.  We represent an object as an association list in
insertion order. -/

/-- One property-definition step of an ECMAScript object literal (equally,
`Map.prototype.set`): if the key is already present its value is replaced
in place, otherwise the pair is appended. -/
def objInsert (obj : List (String × α)) (k : String) (v : α) : List (String × α) :=
  if obj.any (fun p => p.1 == k) then
    obj.map (fun p => if p.1 == k then (k, v) else p)
  else
    obj ++ [(k, v)]

/-- Evaluation of an ECMAScript object literal given its entries in source
order: entries are inserted sequentially, so a duplicated key ends up
holding the last-written value. -/
def objOfLiteral (entries : List (String × α)) : List (String × α) :=
  entries.foldl (fun o e => objInsert o e.1 e.2) []

/-! ## The thresholds object literals of the repository

Entry lists in exact source order, from `tests/simple-message.test.js`
(`options.thresholds`), `config/local.env.js` and `config/stage.env.js`
(`config.thresholds`).  Each of these literals defines the key
`http_req_duration` twice. -/

/-- `options.thresholds` of `tests/simple-message.test.js`, as the ordered
entry list of the object literal. -/
def simpleMessageThresholds : List (String × List String) :=
  [("http_req_failed", ["rate<0.01"]),
   ("http_req_duration", ["p(95)<500"]),
   ("http_req_duration", ["p(99)<1000"]),
   ("errors", ["rate<0.05"])]

/-- `config.thresholds` of `config/local.env.js`, as the ordered entry list
of the object literal. -/
def localConfigThresholds : List (String × List String) :=
  [("http_req_failed", ["rate<0.01"]),
   ("http_req_duration", ["p(95)<500"]),
   ("http_req_duration", ["p(99)<1000"])]

/-- `config.thresholds` of `config/stage.env.js`, as the ordered entry list
of the object literal. -/
def stageConfigThresholds : List (String × List String) :=
  [("http_req_failed", ["rate<0.01"]),
   ("http_req_duration", ["p(95)<1000"]),
   ("http_req_duration", ["p(99)<2000"])]

/-- Claim C1: in each thresholds object literal that lists two
`http_req_duration` entries (the load-test options of
`simple-message.test.js` and the `local`/`stage` environment config files),
the entries are mutually overwriting: the evaluated configuration maps
`http_req_duration` to the last-defined p(99) bound only, and the earlier
p(95) entry is absent from the evaluated configuration. -/
theorem thresholds_duplicate_key_overwrites :
    ((objOfLiteral simpleMessageThresholds).lookup "http_req_duration" = some ["p(99)<1000"]
      ∧ (objOfLiteral simpleMessageThresholds).all
          (fun p => !(p.2.contains "p(95)<500")) = true)
    ∧ ((objOfLiteral localConfigThresholds).lookup "http_req_duration" = some ["p(99)<1000"]
      ∧ (objOfLiteral localConfigThresholds).all
          (fun p => !(p.2.contains "p(95)<500")) = true)
    ∧ ((objOfLiteral stageConfigThresholds).lookup "http_req_duration" = some ["p(99)<2000"]
      ∧ (objOfLiteral stageConfigThresholds).all
          (fun p => !(p.2.contains "p(95)<1000")) = true) := by
  decide

/-! ## Configuration loading of `tests/simple-message.test.js`

The script reads `__ENV`, switches on `ENV.toLowerCase()` to build a config
object, throws on an unknown environment, throws when the resulting
endpoint is falsy, and merely warns (`console.warn`) when no `BOT_TOKEN`
is provided. -/

/-- The k6 `__ENV` mapping, as an association list of environment
variables. -/
abbrev EnvVars := List (String × String)

/-- Reading one variable from `__ENV` (absent variables are
`undefined`). -/
def envGet (vars : EnvVars) (k : String) : Option String :=
  vars.lookup k

/-- Models `String.prototype.toLowerCase` by lowercasing every character
(computable character by character, unlike the library helper on whole
strings). -/
def jsToLower (s : String) : String :=
  String.mk (s.data.map Char.toLower)

/-- The per-environment `config` object built by the `switch` statement of
`tests/simple-message.test.js`. -/
structure RawConfig where
  endpoint : Option String
  appId : Option String
  tenantId : Option String
  token : Option String

/-- Outcome of the module-level configuration section of
`tests/simple-message.test.js`: either a thrown error (`fatal`) or a
validated config together with whether the missing-token warning was
printed. -/
inductive InitOutcome where
  | fatal (msg : String)
  | ok (cfg : RawConfig) (tokenWarned : Bool)

/-- Whether the configuration section threw. -/
def InitOutcome.isFatal : InitOutcome → Bool
  | InitOutcome.fatal _ => true
  | InitOutcome.ok _ _ => false

/-- The module-level configuration loading of
`tests/simple-message.test.js`: `ENV = __ENV.ENV || 'local'`, a `switch`
on `ENV.toLowerCase()` whose `default` throws
`Unknown environment: <ENV>`, a throw of
`Missing bot endpoint for environment: <ENV>` when the endpoint is falsy,
and a `console.warn` (not a throw) when `BOT_TOKEN` is falsy. -/
def loadSimpleMessageConfig (vars : EnvVars) : InitOutcome :=
  let env := jsOr (envGet vars "ENV") "local"
  let cfgOpt : Option RawConfig :=
    if jsToLower env = "local" then
      some { endpoint := some (jsOr (envGet vars "LOCAL_BOT_ENDPOINT")
                                "http://localhost:3978/api/messages"),
             appId := envGet vars "LOCAL_MICROSOFT_APP_ID",
             tenantId := envGet vars "LOCAL_MICROSOFT_APP_TENANT_ID",
             token := envGet vars "BOT_TOKEN" }
    else if jsToLower env = "stage" then
      some { endpoint := envGet vars "STAGE_BOT_ENDPOINT",
             appId := envGet vars "STAGE_MICROSOFT_APP_ID",
             tenantId := envGet vars "STAGE_MICROSOFT_APP_TENANT_ID",
             token := envGet vars "BOT_TOKEN" }
    else if jsToLower env = "prod" then
      some { endpoint := envGet vars "PROD_BOT_ENDPOINT",
             appId := envGet vars "PROD_MICROSOFT_APP_ID",
             tenantId := envGet vars "PROD_MICROSOFT_APP_TENANT_ID",
             token := envGet vars "BOT_TOKEN" }
    else none
  match cfgOpt with
  | none => InitOutcome.fatal ("Unknown environment: " ++ env)
  | some cfg =>
    if jsTruthyStr cfg.endpoint then
      InitOutcome.ok cfg (!jsTruthyStr cfg.token)
    else
      InitOutcome.fatal ("Missing bot endpoint for environment: " ++ env)

/-- Claim C4, counterexample: with `ENV=stage`, a configured endpoint and
no `BOT_TOKEN` at all, configuration loading does not fail fatally — the
missing token only produces a warning — refuting that every configuration
error (including missing credentials/token) is fatal. -/
theorem missing_token_is_not_fatal :
    envGet [("ENV", "stage"),
            ("STAGE_BOT_ENDPOINT", "https://bot.example.com/api/messages")]
        "BOT_TOKEN" = none
    ∧ (loadSimpleMessageConfig
        [("ENV", "stage"),
         ("STAGE_BOT_ENDPOINT", "https://bot.example.com/api/messages")]).isFatal
      = false := by
  decide

/-- Claim C4 (amended): an `ENV` value whose lowercase form is not one of
`local`/`stage`/`prod` fails fatally with a message naming the invalid
value, and a missing bot endpoint fails fatally with a message naming the
environment; but a missing token is not fatal — loading succeeds and only
records a warning (`tokenWarned` is set exactly when the token is falsy),
and any successful load has a truthy endpoint. -/
theorem loadSimpleMessageConfig_spec (vars : EnvVars) :
    (jsToLower (jsOr (envGet vars "ENV") "local") ≠ "local" →
     jsToLower (jsOr (envGet vars "ENV") "local") ≠ "stage" →
     jsToLower (jsOr (envGet vars "ENV") "local") ≠ "prod" →
     loadSimpleMessageConfig vars
       = InitOutcome.fatal ("Unknown environment: " ++ jsOr (envGet vars "ENV") "local"))
    ∧ (jsToLower (jsOr (envGet vars "ENV") "local") = "stage" →
       jsTruthyStr (envGet vars "STAGE_BOT_ENDPOINT") = false →
       loadSimpleMessageConfig vars
         = InitOutcome.fatal
             ("Missing bot endpoint for environment: " ++ jsOr (envGet vars "ENV") "local"))
    ∧ (jsToLower (jsOr (envGet vars "ENV") "local") = "prod" →
       jsTruthyStr (envGet vars "PROD_BOT_ENDPOINT") = false →
       loadSimpleMessageConfig vars
         = InitOutcome.fatal
             ("Missing bot endpoint for environment: " ++ jsOr (envGet vars "ENV") "local"))
    ∧ (∀ cfg w, loadSimpleMessageConfig vars = InitOutcome.ok cfg w →
        jsTruthyStr cfg.endpoint = true ∧ (w = true ↔ jsTruthyStr cfg.token = false)) := by
  refine ⟨?_, ?_, ?_, ?_⟩
  · intro h1 h2 h3
    simp only [loadSimpleMessageConfig, if_neg h1, if_neg h2, if_neg h3]
  · intro h1 h2
    have hne : jsToLower (jsOr (envGet vars "ENV") "local") ≠ "local" := by
      rw [h1]; decide
    simp only [loadSimpleMessageConfig, if_neg hne, if_pos h1, h2]
    simp
  · intro h1 h2
    have hne1 : jsToLower (jsOr (envGet vars "ENV") "local") ≠ "local" := by
      rw [h1]; decide
    have hne2 : jsToLower (jsOr (envGet vars "ENV") "local") ≠ "stage" := by
      rw [h1]; decide
    simp only [loadSimpleMessageConfig, if_neg hne1, if_neg hne2, if_pos h1, h2]
    simp
  · intro cfg w h
    simp only [loadSimpleMessageConfig] at h
    split at h
    · simp at h
    · rename_i cfg0 heq
      split at h
      · rename_i hend
        injection h with hcfg hw
        constructor
        · rw [← hcfg]; exact hend
        · rw [← hcfg, ← hw]
          cases htok : jsTruthyStr cfg0.token <;> simp
      · simp at h

/-- Claim C4, witness: applying the amended theorem at the concrete
environment `ENV=qa` yields the fatal unknown-environment message. -/
theorem loadSimpleMessageConfig_spec_witness :
    loadSimpleMessageConfig [("ENV", "qa")]
      = InitOutcome.fatal ("Unknown environment: "
          ++ jsOr (envGet [("ENV", "qa")] "ENV") "local") :=
  (loadSimpleMessageConfig_spec [("ENV", "qa")]).1 (by decide) (by decide) (by decide)

/-! ## Request headers

`tests/simple-message.test.js` builds a headers object with `Content-Type`
and adds `Authorization` only when `config.token` is truthy;
`tests/smoke.test.js` always lists an `Authorization` entry, whose value is
a ternary: the Bearer value when the token is truthy and the empty string
otherwise. -/

/-- The `headers` object of the default function of
`tests/simple-message.test.js`: `Content-Type` always, and
`headers['Authorization'] = 'Bearer ' + token` only under
`if (config.token)`. -/
def buildHeadersSimple (token : Option String) : List (String × String) :=
  match token with
  | none => [("Content-Type", "application/json")]
  | some t =>
    if t = "" then
      [("Content-Type", "application/json")]
    else
      [("Content-Type", "application/json"), ("Authorization", "Bearer " ++ t)]

/-- The `params.headers` object of the default function of
`tests/smoke.test.js`: the `Authorization` key is always present, with the
ternary value `config.token ? 'Bearer ' + token : ''`. -/
def buildHeadersSmoke (token : Option String) : List (String × String) :=
  [("Content-Type", "application/json"),
   ("Authorization",
     match token with
     | none => ""
     | some t => if t = "" then "" else "Bearer " ++ t)]

/-- Claim C6, counterexample: in `tests/smoke.test.js`, with no token
configured, an `Authorization` header is still attached to the request
(with the empty string as its value), refuting that no Authorization
header is attached when no token is configured. -/
theorem smoke_attaches_empty_authorization_header :
    (buildHeadersSmoke none).lookup "Authorization" = some "" := by
  decide

/-- Claim C6 (amended): in `tests/simple-message.test.js` the request
carries an `Authorization` header exactly when a token is configured, with
value `Bearer <token>`; in `tests/smoke.test.js` the `Authorization`
header key is always present — `Bearer <token>` when a token is
configured and the empty string otherwise. -/
theorem authorization_header_spec (token : Option String) :
    ((buildHeadersSimple token).lookup "Authorization" ≠ none ↔ jsTruthyStr token = true)
    ∧ (∀ t, token = some t → t ≠ "" →
        (buildHeadersSimple token).lookup "Authorization" = some ("Bearer " ++ t)
        ∧ (buildHeadersSmoke token).lookup "Authorization" = some ("Bearer " ++ t))
    ∧ (buildHeadersSmoke token).lookup "Authorization" ≠ none
    ∧ (jsTruthyStr token = false →
        (buildHeadersSmoke token).lookup "Authorization" = some "") := by
  refine ⟨?_, ?_, ?_, ?_⟩
  · cases token with
    | none => simp [buildHeadersSimple, jsTruthyStr]
    | some t =>
      by_cases h : t = "" <;>
        simp [buildHeadersSimple, jsTruthyStr, h, List.lookup]
  · intro t ht hne
    subst ht
    rw [buildHeadersSimple, if_neg hne]
    exact ⟨rfl, by rw [buildHeadersSmoke]; simp [if_neg hne, List.lookup]⟩
  · cases token with
    | none => simp [buildHeadersSmoke, List.lookup]
    | some t =>
      by_cases h : t = "" <;> simp [buildHeadersSmoke, h, List.lookup]
  · intro hf
    cases token with
    | none => simp [buildHeadersSmoke, List.lookup]
    | some t =>
      simp [jsTruthyStr] at hf
      simp [buildHeadersSmoke, hf, List.lookup]

/-- Claim C6, witness: applying the amended theorem with the configured
token `tok` gives the Bearer header in both scripts. -/
theorem authorization_header_spec_witness :
    (buildHeadersSimple (some "tok")).lookup "Authorization" = some ("Bearer " ++ "tok")
    ∧ (buildHeadersSmoke (some "tok")).lookup "Authorization" = some ("Bearer " ++ "tok") :=
  (authorization_header_spec (some "tok")).2.1 "tok" rfl (by decide)

/-! ## The default iteration function of `tests/simple-message.test.js`

One iteration posts the activity, evaluates three named checks, records
`errorRate.add(!success)`, logs on failure, sleeps one second and returns.
We embed the iteration as the ordered list of its observable actions. -/

/-- Substring test used to model `String.prototype.includes`: does the
second list start with the first? -/
def listStartsWith : List Char → List Char → Bool
  | [], _ => true
  | _ :: _, [] => false
  | a :: as, b :: bs => (a == b) && listStartsWith as bs

/-- Substring test used to model `String.prototype.includes`: does the
needle occur contiguously in the haystack? -/
def listContainsSub (needle : List Char) : List Char → Bool
  | [] => needle.isEmpty
  | c :: cs => listStartsWith needle (c :: cs) || listContainsSub needle cs

/-- Models `hay.includes(needle)` on JavaScript strings. -/
def strIncludes (hay needle : String) : Bool :=
  listContainsSub needle.data hay.data

/-- An HTTP response as consumed by the checks of
`tests/simple-message.test.js`: status code, `timings.duration` in
milliseconds, and a possibly-null body. -/
structure Response where
  status : Nat
  duration : ℚ
  body : Option String

/-- The check `status is 200 or 202`. -/
def checkStatus (r : Response) : Bool :=
  (r.status == 200) || (r.status == 202)

/-- The check `response time < 1000ms`. -/
def checkDuration (r : Response) : Bool :=
  decide (r.duration < 1000)

/-- The check `no error in response`: `!r.body || !r.body.includes('error')`
(a falsy — null or empty — body passes). -/
def checkNoError (r : Response) : Bool :=
  match r.body with
  | none => true
  | some b => (b == "") || !(strIncludes b "error")

/-- The combined result of `check(response, {...})`: true exactly when all
three named checks pass. -/
def checksPass (r : Response) : Bool :=
  checkStatus r && checkDuration r && checkNoError r

/-- Observable actions of one iteration of the default function. -/
inductive IterEvent where
  | httpPost (url : String) (payload : String)
  | rateAdd (metric : String) (value : Bool)
  | consoleError (msg : String)
  | sleep (seconds : ℚ)
  | throwErr (msg : String)

/-- Discriminator for `consoleError` events. -/
def IterEvent.isConsoleError : IterEvent → Bool
  | IterEvent.consoleError _ => true
  | _ => false

/-- Discriminator for `throwErr` events. -/
def IterEvent.isThrow : IterEvent → Bool
  | IterEvent.throwErr _ => true
  | _ => false

/-- Extracts a Rate-metric sample from an event. -/
def IterEvent.rateSample : IterEvent → Option (String × Bool)
  | IterEvent.rateAdd m v => some (m, v)
  | _ => none

/-- Rendering of a possibly-null body in the failure log message. -/
def bodyText : Option String → String
  | some b => b
  | none => "null"

/-- The default (per-VU) function of `tests/simple-message.test.js`, as the
ordered list of its observable actions on a given response: post the
payload, record `errorRate.add(!success)`, log `console.error` only on
failure, then `sleep(1)`.  The function body contains no throw, so no
`throwErr` event is ever emitted. -/
def defaultIteration (endpoint payload : String) (r : Response) : List IterEvent :=
  [IterEvent.httpPost endpoint payload,
   IterEvent.rateAdd "errors" (!checksPass r)]
  ++ (if checksPass r then []
      else [IterEvent.consoleError
              ("Request failed: " ++ toString r.status ++ " - " ++ bodyText r.body)])
  ++ [IterEvent.sleep 1]

/-- Claim C7: for every response — including one failing the checks — the
default iteration records exactly one `errors` Rate sample, equal to the
negation of the combined check result; logs a failure message exactly when
the checks fail; ends with the 1-second think-time sleep; and emits no
throw, so a check failure never propagates beyond the iteration. -/
theorem defaultIteration_failure_semantics (endpoint payload : String) (r : Response) :
    (defaultIteration endpoint payload r).filterMap IterEvent.rateSample
      = [("errors", !checksPass r)]
    ∧ (defaultIteration endpoint payload r).countP IterEvent.isConsoleError
      = (if checksPass r then 0 else 1)
    ∧ (defaultIteration endpoint payload r).getLast? = some (IterEvent.sleep 1)
    ∧ (defaultIteration endpoint payload r).countP IterEvent.isThrow = 0 := by
  cases h : checksPass r <;>
    simp [defaultIteration, h, IterEvent.rateSample, IterEvent.isConsoleError,
      IterEvent.isThrow, List.filterMap, List.countP, List.countP.go]

/-! ## The Rate metric aggregate

Modelled from the spec: the repository's metrics engine is the external k6
tool; §4.4 of the specification defines the Rate update rule as
`increment total; increment successes if value is truthy`. -/

/-- Modelled from the spec: the running aggregate of a k6 `Rate` metric
(`successes` over `total`), which the repository's scripts feed via
`errorRate.add` and `successRate.add`. -/
structure RateState where
  total : Nat
  successes : Nat

/-- Modelled from the spec: the empty Rate aggregate. -/
def rateInit : RateState :=
  { total := 0, successes := 0 }

/-- Modelled from the spec: one `Rate.add(value)` update — increment
`total`, and increment `successes` when the value is truthy. -/
def rateAdd (st : RateState) (v : Bool) : RateState :=
  { total := st.total + 1,
    successes := st.successes + (if v then 1 else 0) }

/-- Modelled from the spec: the aggregate of a whole sequence of
`Rate.add` calls. -/
def rateOfList (l : List Bool) : RateState :=
  l.foldl rateAdd rateInit

/-- Modelled from the spec: the value a Rate threshold is evaluated
against, `successes / total`. -/
def rateValue (st : RateState) : ℚ :=
  (st.successes : ℚ) / (st.total : ℚ)

/-- Folding `rateAdd` adds the list length to `total` and the number of
truthy values to `successes`. -/
theorem rateOfList_foldl (l : List Bool) (st : RateState) :
    (l.foldl rateAdd st).total = st.total + l.length
    ∧ (l.foldl rateAdd st).successes = st.successes + l.count true := by
  induction l generalizing st with
  | nil => simp
  | cons b bs ih =>
    cases b <;>
      simp [List.foldl_cons, rateAdd, ih, List.count_cons] <;> omega

/-- Claim C8: for every sequence of values added to a Rate metric the
aggregate's `total` is the number of `add` calls and `successes` is the
number of truthy values added; consequently, when each iteration records
`errorRate.add(!success)` as in the test scripts, the errors rate equals
the number of iterations whose checks failed divided by the total number
of iterations. -/
theorem rate_metric_spec :
    (∀ l : List Bool,
      (rateOfList l).total = l.length ∧ (rateOfList l).successes = l.count true)
    ∧ (∀ rs : List Response, rs ≠ [] →
        rateValue (rateOfList (rs.map (fun r => !checksPass r)))
          = ((rs.countP (fun r => !checksPass r) : ℚ) / (rs.length : ℚ))) := by
  constructor
  · intro l
    have h := rateOfList_foldl l rateInit
    simpa [rateOfList, rateInit] using h
  · intro rs _
    have h := rateOfList_foldl (rs.map (fun r => !checksPass r)) rateInit
    rw [rateValue, rateOfList]
    rw [h.1, h.2]
    simp only [rateInit, List.count_eq_countP, List.countP_map, List.length_map,
      Nat.zero_add, beq_true]
    rfl

/-- Claim C8, witness: applying the theorem to a single failing response
(status 500) gives an errors rate of one failed iteration over one
iteration. -/
theorem rate_metric_spec_witness :
    rateValue (rateOfList (([⟨500, 100, none⟩] : List Response).map (fun r => !checksPass r)))
      = ((([⟨500, 100, none⟩] : List Response).countP (fun r => !checksPass r) : ℚ)
          / (([⟨500, 100, none⟩] : List Response).length : ℚ)) :=
  rate_metric_spec.2 [⟨500, 100, none⟩] (by simp)

/-! ## The Trend metric aggregate

Modelled from the spec: §4.4 of the specification defines the Trend update
as a streaming update of running count/min/max/sum; the scripts feed it
via `responseTrend.add(response.timings.duration)`. -/

/-- Modelled from the spec: the streaming aggregate of a k6 `Trend`
metric — running count, sum, minimum and maximum of the recorded
samples. -/
structure TrendState where
  count : Nat
  total : ℚ
  minSample : Option ℚ
  maxSample : Option ℚ

/-- Modelled from the spec: the empty Trend aggregate. -/
def trendInit : TrendState :=
  { count := 0, total := 0, minSample := none, maxSample := none }

/-- Modelled from the spec: one `Trend.add(value)` update — bump the
count, add to the running sum, and fold the value into min and max. -/
def trendAdd (st : TrendState) (v : ℚ) : TrendState :=
  { count := st.count + 1,
    total := st.total + v,
    minSample := some (match st.minSample with
                       | none => v
                       | some m => min m v),
    maxSample := some (match st.maxSample with
                       | none => v
                       | some m => max m v) }

/-- Modelled from the spec: the aggregate of a whole sequence of recorded
samples. -/
def trendOfList (l : List ℚ) : TrendState :=
  l.foldl trendAdd trendInit

/-- Folding `trendAdd` adds the list length to the count. -/
theorem trendOfList_foldl_count (l : List ℚ) (st : TrendState) :
    (l.foldl trendAdd st).count = st.count + l.length := by
  induction l generalizing st with
  | nil => simp
  | cons v vs ih =>
    simp [List.foldl_cons, trendAdd, ih]
    omega

/-- Claim C3: for every finite multiset of samples recorded to a Trend
metric, the final aggregate's count equals the number of recorded samples;
the count is therefore identical for every recording order, and the count
update commutes on consecutive adds. -/
theorem trend_count_order_independent :
    (∀ l : List ℚ, (trendOfList l).count = l.length)
    ∧ (∀ l l' : List ℚ, l.Perm l' → (trendOfList l).count = (trendOfList l').count)
    ∧ (∀ (st : TrendState) (v w : ℚ),
        (trendAdd (trendAdd st v) w).count = (trendAdd (trendAdd st w) v).count) := by
  have hcount : ∀ l : List ℚ, (trendOfList l).count = l.length := by
    intro l
    have h := trendOfList_foldl_count l trendInit
    simpa [trendOfList, trendInit] using h
  refine ⟨hcount, ?_, ?_⟩
  · intro l l' hperm
    rw [hcount, hcount, hperm.length_eq]
  · intro st v w
    simp [trendAdd]

/-- Claim C3, witness: the theorem applied to the permuted sample lists
`[3, 1]` and `[1, 3]` gives equal counts. -/
theorem trend_count_order_independent_witness :
    (trendOfList [3, 1]).count = (trendOfList [1, 3]).count :=
  trend_count_order_independent.2.1 [3, 1] [1, 3] (by decide)

/-! ## The stage scheduler

Modelled from the spec: §4.1 of the specification defines the k6 stage
scheduler consumed through `options.stages` of the test scripts.  Within a
stage the target concurrency interpolates linearly between the previous
stage's target and the stage's target, rounded to the nearest non-negative
integer; after the last stage the target is held; a zero-duration stage
jumps instantly. -/

/-- One entry of a k6 `options.stages` list: a duration (in seconds, as a
rational) and a target concurrency. -/
structure Stage where
  duration : ℚ
  target : Nat

/-- Modelled from the spec: the Stage Scheduler's target-concurrency
function.  `schedTarget prev stages t` is the desired number of active
virtual users at elapsed time `t` into the stage list `stages`, starting
from previous target `prev` (0 at the start of a run).  Within a stage the
value interpolates linearly from `prev` to the stage target, rounded to
the nearest integer and clamped to be non-negative; once all stages are
consumed the last target is held. -/
def schedTarget (prev : Nat) (stages : List Stage) (t : ℚ) : Nat :=
  match stages with
  | [] => prev
  | s :: rest =>
    if t < s.duration then
      (round ((prev : ℚ) + (((s.target : ℚ) - (prev : ℚ)) * t) / s.duration)).toNat
    else
      schedTarget s.target rest (t - s.duration)

/-- Start time of the `i`-th stage boundary: the sum of the durations of
the first `i` stages. -/
def stageStart : List Stage → Nat → ℚ
  | _, 0 => 0
  | [], _ + 1 => 0
  | s :: rest, i + 1 => s.duration + stageStart rest i

/-- The declared target at the `i`-th stage boundary: the target of stage
`i - 1`, or the initial previous target for `i = 0`. -/
def boundaryTarget : Nat → List Stage → Nat → Nat
  | prev, _, 0 => prev
  | prev, [], _ + 1 => prev
  | _, s :: rest, i + 1 => boundaryTarget s.target rest i

/-- Stage boundary times are non-negative when all durations are. -/
theorem stageStart_nonneg (stages : List Stage) (i : Nat)
    (hd : ∀ s ∈ stages, 0 ≤ s.duration) : 0 ≤ stageStart stages i := by
  induction stages generalizing i with
  | nil => cases i <;> simp [stageStart]
  | cons s rest ih =>
    cases i with
    | zero => simp [stageStart]
    | succ j =>
      have h1 := hd s (List.mem_cons_self s rest)
      have h2 := ih j (fun x hx => hd x (List.mem_cons_of_mem s hx))
      simp only [stageStart]
      linarith

/-- Inside stage `i` — that is, for `t` in the half-open window from the
`i`-th boundary to the `i`-th boundary plus the stage's duration — the
scheduler's value is the linear interpolation between the boundary targets,
rounded to the nearest integer and clamped non-negative. -/
theorem schedTarget_in_stage (stages : List Stage) :
    ∀ (prev i : Nat) (t : ℚ), (∀ s ∈ stages, 0 ≤ s.duration) →
    ∀ (hi : i < stages.length),
    stageStart stages i ≤ t →
    t < stageStart stages i + (stages.get ⟨i, hi⟩).duration →
    schedTarget prev stages t =
      (round ((boundaryTarget prev stages i : ℚ)
        + ((((stages.get ⟨i, hi⟩).target : ℚ) - (boundaryTarget prev stages i : ℚ))
            * (t - stageStart stages i)) / (stages.get ⟨i, hi⟩).duration)).toNat := by
  induction stages with
  | nil =>
    intro prev i t _ hi
    exact absurd hi (by simp)
  | cons s rest ih =>
    intro prev i t hd hi hlo hhi
    cases i with
    | zero =>
      simp only [stageStart, List.get] at hlo hhi ⊢
      have ht : t < s.duration := by linarith
      simp only [schedTarget, if_pos ht, boundaryTarget]
      norm_num
    | succ j =>
      have hdrest : ∀ x ∈ rest, 0 ≤ x.duration :=
        fun x hx => hd x (List.mem_cons_of_mem s hx)
      have h0 : (0 : ℚ) ≤ stageStart rest j := stageStart_nonneg rest j hdrest
      simp only [stageStart, List.get] at hlo hhi ⊢
      have hs : s.duration ≤ t := by linarith
      have hnot : ¬ t < s.duration := not_lt.mpr hs
      simp only [schedTarget, if_neg hnot, boundaryTarget]
      have hj : j < rest.length := by
        simpa using hi
      have hres := ih s.target j (t - s.duration) hdrest hj
        (by linarith) (by linarith)
      rw [hres]
      congr 2
      ring

/-- At each stage boundary the scheduler's value equals the declared
boundary target exactly (all stage durations positive). -/
theorem schedTarget_at_boundary (stages : List Stage) :
    ∀ (prev i : Nat), (∀ s ∈ stages, 0 < s.duration) → i ≤ stages.length →
    schedTarget prev stages (stageStart stages i) = boundaryTarget prev stages i := by
  induction stages with
  | nil =>
    intro prev i _ hi
    cases i <;> simp [schedTarget, stageStart, boundaryTarget]
  | cons s rest ih =>
    intro prev i hd hi
    cases i with
    | zero =>
      have hdur : 0 < s.duration := hd s (List.mem_cons_self s rest)
      simp only [stageStart, schedTarget, if_pos hdur, boundaryTarget]
      norm_num
    | succ j =>
      have hdrest : ∀ x ∈ rest, 0 < x.duration :=
        fun x hx => hd x (List.mem_cons_of_mem s hx)
      have h0 : (0 : ℚ) ≤ stageStart rest j :=
        stageStart_nonneg rest j (fun x hx => le_of_lt (hdrest x hx))
      have hnot : ¬ s.duration + stageStart rest j < s.duration := by linarith
      simp only [stageStart, schedTarget, if_neg hnot, boundaryTarget]
      have harg : s.duration + stageStart rest j - s.duration = stageStart rest j := by
        ring
      rw [harg]
      exact ih s.target j hdrest (by simpa using hi)

/-- Claim C2: for every stage list with non-negative durations and every
elapsed time inside a stage, the scheduler's target equals the previous
boundary target plus the target difference scaled by the elapsed fraction
of the stage, rounded to the nearest non-negative integer; at every stage
boundary (durations positive) it equals the declared boundary target
exactly; and for the stage list `[{duration: 10s, target: 5}]` of the test
scripts the target at `t = 5` is 2 or 3 and the target at `t = 10` is
exactly 5. -/
theorem stage_scheduler_spec :
    (∀ (prev i : Nat) (stages : List Stage) (t : ℚ),
      (∀ s ∈ stages, 0 ≤ s.duration) →
      ∀ (hi : i < stages.length),
      stageStart stages i ≤ t →
      t < stageStart stages i + (stages.get ⟨i, hi⟩).duration →
      schedTarget prev stages t =
        (round ((boundaryTarget prev stages i : ℚ)
          + ((((stages.get ⟨i, hi⟩).target : ℚ) - (boundaryTarget prev stages i : ℚ))
              * (t - stageStart stages i)) / (stages.get ⟨i, hi⟩).duration)).toNat)
    ∧ (∀ (prev i : Nat) (stages : List Stage),
        (∀ s ∈ stages, 0 < s.duration) → i ≤ stages.length →
        schedTarget prev stages (stageStart stages i) = boundaryTarget prev stages i)
    ∧ ((schedTarget 0 [⟨10, 5⟩] 5 = 2 ∨ schedTarget 0 [⟨10, 5⟩] 5 = 3)
        ∧ schedTarget 0 [⟨10, 5⟩] 10 = 5) := by
  refine ⟨?_, ?_, ?_, ?_⟩
  · intro prev i stages t hd hi hlo hhi
    exact schedTarget_in_stage stages prev i t hd hi hlo hhi
  · intro prev i stages hd hi
    exact schedTarget_at_boundary stages prev i hd hi
  · refine Or.inr ?_
    rw [schedTarget, if_pos (by norm_num)]
    norm_num [round_eq]
    rfl
  · rw [schedTarget, if_neg (by norm_num)]
    rfl

/-- Claim C2, witness: applying the theorem's in-stage part halfway
through the single stage `{duration: 10, target: 5}` starting from 0
active users gives the rounded midpoint. -/
theorem stage_scheduler_spec_witness :
    schedTarget 0 [⟨10, 5⟩] 5 =
      (round ((boundaryTarget 0 [⟨10, 5⟩] 0 : ℚ)
        + (((([(⟨10, 5⟩ : Stage)].get ⟨0, by decide⟩).target : ℚ)
              - (boundaryTarget 0 [⟨10, 5⟩] 0 : ℚ))
            * ((5 : ℚ) - stageStart [⟨10, 5⟩] 0))
          / ([(⟨10, 5⟩ : Stage)].get ⟨0, by decide⟩).duration)).toNat :=
  stage_scheduler_spec.1 0 0 [⟨10, 5⟩] 5
    (by simp) (by decide)
    (by norm_num [stageStart]) (by norm_num [stageStart])

/-! ## The token cache of `lib/auth-helper.js`

`getBotToken` keys the module-level `tokenCache` Map by
`appId + ':' + appPassword`, returns a cached token while its stored
expiry is more than one minute away, and otherwise asks the credential
library for a fresh token, caching it with a one-hour expiry; a library
failure is rethrown as `Failed to generate token: <message>` after the
`catch`, before any cache write. -/

/-- One entry of the `tokenCache` Map: the token string and its stored
`expiresAt` timestamp in milliseconds. -/
structure CacheEntry where
  token : String
  expiresAt : ℤ

/-- The module-level `tokenCache` Map, keyed by `appId:appPassword`, in
insertion order. -/
abbrev TokenCache := List (String × CacheEntry)

/-- The observable outcome of one `getBotToken` call: the returned token
or thrown message, the cache state afterwards, and whether the credential
library was invoked. -/
structure TokenResult where
  result : Except String String
  cache : TokenCache
  invoked : Bool

/-- The `try` block of `getBotToken` once the cache did not serve: invoke
the credential library (`freshToken` is the outcome of
`credentials.getToken()`); on success store the token with a one-hour
expiry (`Date.now() + 3600000`) and return it; on failure rethrow
`Failed to generate token: <message>` without touching the cache. -/
def getBotTokenFresh (now : ℤ) (freshToken : Except String String)
    (cacheKey : String) (cache : TokenCache) : TokenResult :=
  match freshToken with
  | Except.ok t =>
    { result := Except.ok t,
      cache := objInsert cache cacheKey { token := t, expiresAt := now + 3600000 },
      invoked := true }
  | Except.error e =>
    { result := Except.error ("Failed to generate token: " ++ e),
      cache := cache,
      invoked := true }

/-- `getBotToken(appId, appPassword)` of `lib/auth-helper.js`: look up the
cache under `appId + ':' + appPassword`; if an entry exists whose
`expiresAt` is beyond `Date.now() + 60000` (the one-minute buffer), return
it without invoking the credential library; otherwise generate, cache and
return a fresh token. -/
def getBotToken (now : ℤ) (freshToken : Except String String)
    (appId appPassword : String) (cache : TokenCache) : TokenResult :=
  let cacheKey := appId ++ ":" ++ appPassword
  match cache.lookup cacheKey with
  | some cached =>
    if now + 60000 < cached.expiresAt then
      { result := Except.ok cached.token, cache := cache, invoked := false }
    else
      getBotTokenFresh now freshToken cacheKey cache
  | none => getBotTokenFresh now freshToken cacheKey cache

/-- The JavaScript guard `cached && cached.expiresAt > Date.now() + 60000`
as a boolean on the cache state. -/
def cacheHasFreshEntry (cache : TokenCache) (key : String) (now : ℤ) : Bool :=
  match cache.lookup key with
  | some c => decide (now + 60000 < c.expiresAt)
  | none => false

/-- Claim C5: `getBotToken` returns the cached token without invoking the
credential library if and only if a cache entry for the
`appId:appPassword` key exists whose `expiresAt` lies more than 60000 ms
after the current time — in that case the cache is unchanged; otherwise it
invokes the library and, on success, returns the fresh token after storing
it under that key with `expiresAt` equal to the current time plus
3600000 ms. -/
theorem getBotToken_cache_spec (now : ℤ) (freshToken : Except String String)
    (appId appPassword : String) (cache : TokenCache) :
    ((getBotToken now freshToken appId appPassword cache).invoked = false
      ↔ ∃ c, cache.lookup (appId ++ ":" ++ appPassword) = some c
          ∧ now + 60000 < c.expiresAt)
    ∧ (∀ c, cache.lookup (appId ++ ":" ++ appPassword) = some c →
        now + 60000 < c.expiresAt →
        getBotToken now freshToken appId appPassword cache
          = { result := Except.ok c.token, cache := cache, invoked := false })
    ∧ (∀ t, freshToken = Except.ok t →
        cacheHasFreshEntry cache (appId ++ ":" ++ appPassword) now = false →
        getBotToken now freshToken appId appPassword cache
          = { result := Except.ok t,
              cache := objInsert cache (appId ++ ":" ++ appPassword)
                         { token := t, expiresAt := now + 3600000 },
              invoked := true }) := by
  refine ⟨?_, ?_, ?_⟩
  · constructor
    · intro hinv
      simp only [getBotToken] at hinv
      cases hlk : (cache.lookup (appId ++ ":" ++ appPassword)) with
      | none =>
        rw [hlk] at hinv
        cases freshToken <;> simp [getBotTokenFresh] at hinv
      | some c =>
        rw [hlk] at hinv
        by_cases hfresh : now + 60000 < c.expiresAt
        · exact ⟨c, rfl, hfresh⟩
        · simp only [if_neg hfresh] at hinv
          cases freshToken <;> simp [getBotTokenFresh] at hinv
    · rintro ⟨c, hlk, hfresh⟩
      simp only [getBotToken, hlk]
      simp [if_pos hfresh]
  · intro c hlk hfresh
    simp only [getBotToken, hlk]
    simp [if_pos hfresh]
  · intro t hft hmiss
    subst hft
    simp only [getBotToken]
    cases hlk : (cache.lookup (appId ++ ":" ++ appPassword)) with
    | none => simp [getBotTokenFresh]
    | some c =>
      simp only [cacheHasFreshEntry, hlk] at hmiss
      have hnot : ¬ now + 60000 < c.expiresAt := by simpa using hmiss
      simp only [if_neg hnot]
      simp [getBotTokenFresh]

/-- Claim C5, witness: applying the theorem's cache-hit part to a cache
holding an entry for `a:b` that expires well after the one-minute buffer
returns the cached token without invoking the library and leaves the
cache unchanged. -/
theorem getBotToken_cache_spec_witness :
    getBotToken 0 (Except.ok "new") "a" "b" [("a:b", ⟨"tok", 10000000⟩)]
      = { result := Except.ok "tok",
          cache := [("a:b", ⟨"tok", 10000000⟩)],
          invoked := false } :=
  (getBotToken_cache_spec 0 (Except.ok "new") "a" "b"
      [("a:b", ⟨"tok", 10000000⟩)]).2.1 ⟨"tok", 10000000⟩ rfl (by decide)

/-- Claim C10: if the credential library throws while `getBotToken` is
generating a fresh token (no sufficiently fresh cache entry), the call
throws an error whose message is `Failed to generate token: ` followed by
the library's message, and the cache is left exactly unchanged. -/
theorem getBotToken_error_leaves_cache (now : ℤ) (appId appPassword e : String)
    (cache : TokenCache) :
    cacheHasFreshEntry cache (appId ++ ":" ++ appPassword) now = false →
    getBotToken now (Except.error e) appId appPassword cache
      = { result := Except.error ("Failed to generate token: " ++ e),
          cache := cache,
          invoked := true } := by
  intro hmiss
  simp only [getBotToken]
  cases hlk : (cache.lookup (appId ++ ":" ++ appPassword)) with
  | none => simp [getBotTokenFresh]
  | some c =>
    simp only [cacheHasFreshEntry, hlk] at hmiss
    have hnot : ¬ now + 60000 < c.expiresAt := by simpa using hmiss
    simp only [if_neg hnot]
    simp [getBotTokenFresh]

/-- Claim C10, witness: applying the theorem to an empty cache and a
library failure `boom` yields the prefixed error with the cache still
empty. -/
theorem getBotToken_error_leaves_cache_witness :
    getBotToken 0 (Except.error "boom") "a" "b" []
      = { result := Except.error ("Failed to generate token: " ++ "boom"),
          cache := [],
          invoked := true } :=
  getBotToken_error_leaves_cache 0 "a" "b" "boom" [] (by decide)

/-! ## The activity factory of `lib/activity-factory.js`

`createMessageActivity` builds a Bot Framework Activity from a
duck-typed options object; the nondeterministic inputs (UUIDs and the
timestamp) are passed explicitly.  Note that the stored
`conversation.conversationType` applies the `|| 'personal'` default while
`isGroup` strict-compares the raw option against `'group'`/`'channel'`. -/

/-- The `options.from` object of `createMessageActivity`. -/
structure SenderOpts where
  id : String
  name : String
  aadObjectId : String

/-- The `options.recipient` object of `createMessageActivity` (the bot id
may be an undefined credential, the name has a `|| 'Bot'` default). -/
structure RecipientOpts where
  id : Option String
  name : Option String

/-- The `options.conversation` object of `createMessageActivity`. -/
structure ConversationOpts where
  id : Option String
  conversationType : Option String
  tenantId : Option String
  teamsChannelId : Option String
  teamsTeamId : Option String

/-- The duck-typed options object of `createMessageActivity`, with the
destructuring defaults (`channelId = 'msteams'` etc.) represented as
optional fields. -/
structure ActivityOptions where
  text : String
  sender : SenderOpts
  recipient : RecipientOpts
  conversation : ConversationOpts
  serviceUrl : String
  channelId : Option String
  textFormat : Option String
  locale : Option String

/-- The `from` object of the produced Activity. -/
structure ActivitySender where
  id : String
  name : String
  aadObjectId : String
  role : String

/-- The `recipient` object of the produced Activity. -/
structure ActivityRecipient where
  id : Option String
  name : String
  role : String

/-- The `conversation` object of the produced Activity. -/
structure ActivityConversation where
  id : String
  conversationType : String
  isGroup : Bool
  tenantId : Option String

/-- The `channelData.tenant` object of the produced Activity. -/
structure TenantData where
  id : String

/-- The `channelData` object of the produced Activity. -/
structure ChannelData where
  teamsChannelId : Option String
  teamsTeamId : Option String
  tenant : Option TenantData

/-- A Bot Framework Activity as produced by `createMessageActivity`. -/
structure Activity where
  type : String
  id : String
  timestamp : String
  channelId : String
  sender : ActivitySender
  recipient : ActivityRecipient
  conversation : ActivityConversation
  text : String
  textFormat : String
  locale : String
  serviceUrl : String
  channelData : ChannelData

/-- `createMessageActivity(options)` of `lib/activity-factory.js`.
`uuid` stands for the `uuidv4()` used as activity id and `convUuid` for
the one in the conversation-id default; `timestamp` is the ISO rendering
of `new Date()`.  `conversation.isGroup` is
`conversationType === 'group' || conversationType === 'channel'` on the
raw option, while the stored `conversationType` falls back to
`'personal'`. -/
def createMessageActivity (uuid convUuid timestamp : String)
    (options : ActivityOptions) : Activity :=
  { type := "message"
    id := uuid
    timestamp := timestamp
    channelId := options.channelId.getD "msteams"
    sender :=
      { id := options.sender.id
        name := options.sender.name
        aadObjectId := options.sender.aadObjectId
        role := "user" }
    recipient :=
      { id := options.recipient.id
        name := jsOr options.recipient.name "Bot"
        role := "bot" }
    conversation :=
      { id := jsOr options.conversation.id ("test-conversation-" ++ convUuid)
        conversationType := jsOr options.conversation.conversationType "personal"
        isGroup := (options.conversation.conversationType == some "group")
                   || (options.conversation.conversationType == some "channel")
        tenantId := options.conversation.tenantId }
    text := options.text
    textFormat := options.textFormat.getD "plain"
    locale := options.locale.getD "en-US"
    serviceUrl := options.serviceUrl
    channelData :=
      { teamsChannelId := options.conversation.teamsChannelId
        teamsTeamId := options.conversation.teamsTeamId
        tenant :=
          match options.conversation.tenantId with
          | some tid => if tid = "" then none else some { id := tid }
          | none => none } }

/-- The `config.testUser` object consumed by `createTestActivity`. -/
structure TestUser where
  id : String
  name : String
  aadObjectId : String

/-- The `config.credentials` object consumed by `createTestActivity`
(env-derived values may be undefined). -/
structure Credentials where
  appId : Option String
  appPassword : Option String
  tenantId : Option String

/-- The environment `config` object consumed by `createTestActivity`. -/
structure EnvConfig where
  testUser : TestUser
  credentials : Credentials
  serviceUrl : String

/-- `createTestActivity(config, message)` of `lib/activity-factory.js`:
builds the minimal options object — conversation type `'personal'`, a
fresh conversation id, the configured test user and credentials — and
delegates to `createMessageActivity`. -/
def createTestActivity (config : EnvConfig) (uuid convUuid convUuid2 timestamp : String)
    (message : String) : Activity :=
  createMessageActivity uuid convUuid2 timestamp
    { text := message
      sender :=
        { id := config.testUser.id
          name := config.testUser.name
          aadObjectId := config.testUser.aadObjectId }
      recipient :=
        { id := config.credentials.appId
          name := some "Workoflow Bot" }
      conversation :=
        { id := some ("test-conversation-" ++ convUuid)
          conversationType := some "personal"
          tenantId := config.credentials.tenantId
          teamsChannelId := none
          teamsTeamId := none }
      serviceUrl := config.serviceUrl
      channelId := none
      textFormat := none
      locale := none }

/-- Claim C9: for every options object, the activity returned by
`createMessageActivity` has `conversation.isGroup` true if and only if the
raw `options.conversation.conversationType` equals `'group'` or
`'channel'`; and every activity produced by `createTestActivity` has
conversation type `'personal'` and `isGroup` false. -/
theorem createMessageActivity_isGroup
    (uuid convUuid timestamp : String) (opts : ActivityOptions)
    (config : EnvConfig) (u1 u2 u3 ts msg : String) :
    ((createMessageActivity uuid convUuid timestamp opts).conversation.isGroup = true
      ↔ (opts.conversation.conversationType = some "group"
          ∨ opts.conversation.conversationType = some "channel"))
    ∧ (createTestActivity config u1 u2 u3 ts msg).conversation.conversationType
        = "personal"
    ∧ (createTestActivity config u1 u2 u3 ts msg).conversation.isGroup = false := by
  refine ⟨?_, ?_, ?_⟩
  · simp [createMessageActivity]
  · rw [createTestActivity, createMessageActivity]
    simp [jsOr]
  · rw [createTestActivity, createMessageActivity]
    simp
